import Mathlib

/-
  Verification development for the use_aws MCP server (runjivu/use_aws_mcp).

  The Rust sources are shallowly embedded as executable Lean definitions:
  - src/use_aws.rs   : the UseAws command model, acceptance policy, description
                       generator, CLI argument construction, and the invoke
                       path (output capture, truncation, exit-status handling);
  - src/mcp_server.rs: the JSON-RPC message types, request dispatch, the
                       tools/call handler, and the sequential read loop;
  - src/lib.rs       : the MAX_TOOL_RESPONSE_SIZE constant;
  - src/error.rs     : the McpError type.

  Modelling conventions:
  - serde_json::Value is modelled by the inductive Json, with numbers
    restricted to integers (the claims under study never exercise floats).
  - Rust strings are modelled as Lean String; the byte-indexed slicing done by
    invoke is modelled over List Char with explicit UTF-8 byte lengths, where
    an out-of-char-boundary slice (a Rust panic) is Option.none.
  - The subprocess itself is an oracle (UseAws -> ProcessOutput) supplying the
    exit status and the lossy-decoded stdout/stderr; UTF-8 lossy decoding is
    total and onto valid scalar-value strings, so quantifying over decoded
    strings covers every byte sequence a subprocess can emit.  Spawn failures
    are outside the modelled fragment (no claim depends on them).
  - The schema.json file read by tools/list is an oracle SchemaSource.
  - Character classification (isUpper/isLower/isDigit) is the ASCII model of
    the Unicode predicates used by the convert_case crate.
-/

set_option maxHeartbeats 2000000
set_option maxRecDepth 4000

namespace UseAwsMcp

/-- MAX_TOOL_RESPONSE_SIZE from src/lib.rs: maximum size for tool response output. -/
def MAX_TOOL_RESPONSE_SIZE : Nat := 100000

/-! ### Decimal rendering of integers (Rust to_string on exit codes) -/

/-- The decimal digit character for n < 10. -/
def natDigit (n : Nat) : Char := Char.ofNat (48 + n)

/-- Fuelled decimal rendering of a natural number, most significant digit first. -/
def natStrGo : Nat → Nat → List Char
  | 0, _ => []
  | fuel + 1, n => if n < 10 then [natDigit n] else natStrGo fuel (n / 10) ++ [natDigit (n % 10)]

/-- Decimal rendering of a natural number (fuel n + 1 always suffices). -/
def natStr (n : Nat) : List Char := natStrGo (n + 1) n

/-- Rust i32 to_string: decimal, with a leading minus sign for negatives. -/
def intToStr (c : Int) : String :=
  if c < 0 then String.mk ('-' :: natStr (-c).toNat) else String.mk (natStr c.toNat)

/-! ### The Json model of serde_json::Value -/

/-- Model of serde_json::Value (numbers restricted to integers). -/
inductive Json where
  | null
  | bool (b : Bool)
  | num (n : Int)
  | str (s : String)
  | arr (elems : List Json)
  | obj (fields : List (String × Json))

/-- Lowercase hex digit, as used by serde_json for control-character escapes. -/
def hexDigit (n : Nat) : Char := if n < 10 then Char.ofNat (48 + n) else Char.ofNat (87 + n)

/-- serde_json string escaping for one character. -/
def escapeChar (c : Char) : List Char :=
  if c = '"' then ['\\', '"']
  else if c = '\\' then ['\\', '\\']
  else if c = '\x08' then ['\\', 'b']
  else if c = '\x0c' then ['\\', 'f']
  else if c = '\n' then ['\\', 'n']
  else if c = '\r' then ['\\', 'r']
  else if c = '\t' then ['\\', 't']
  else if c.toNat < 0x20 then ['\\', 'u', '0', '0', hexDigit (c.toNat / 16), hexDigit (c.toNat % 16)]
  else [c]

/-- serde_json string escaping. -/
def escapeString (s : String) : String := String.mk (s.data.map escapeChar).flatten

mutual

/-- Compact serialization of a Json value, as serde_json to_string / Display. -/
def Json.render : Json → String
  | .null => "null"
  | .bool true => "true"
  | .bool false => "false"
  | .num n => intToStr n
  | .str s => "\"" ++ escapeString s ++ "\""
  | .arr es => "[" ++ renderElems es ++ "]"
  | .obj fs => "\x7b" ++ renderFields fs ++ "\x7d"

/-- Comma-separated serialization of array elements. -/
def renderElems : List Json → String
  | [] => ""
  | [x] => Json.render x
  | x :: y :: xs => Json.render x ++ "," ++ renderElems (y :: xs)

/-- Comma-separated serialization of object fields. -/
def renderFields : List (String × Json) → String
  | [] => ""
  | [kv] => "\"" ++ escapeString kv.1 ++ "\":" ++ Json.render kv.2
  | kv :: kv2 :: xs => "\"" ++ escapeString kv.1 ++ "\":" ++ Json.render kv.2 ++ "," ++ renderFields (kv2 :: xs)

end

/-- Lookup of a field in a Json object (serde_json Value::get for objects). -/
def Json.getField : Json → String → Option Json
  | .obj fs, k => (fs.find? (fun p => p.1 == k)).map (fun p => p.2)
  | _, _ => none

/-! ### The UseAws command model (src/use_aws.rs) -/

/-- READONLY_OPS from src/use_aws.rs. -/
def READONLY_OPS : List String := ["get", "describe", "list", "ls", "search", "batch_get"]

/-- The UseAws struct: one invocation of the aws CLI.  The parameters HashMap is
modelled as an association list in some iteration order (HashMap iteration
order is arbitrary, and no claim depends on it). -/
structure UseAws where
  service_name : String
  operation_name : String
  parameters : Option (List (String × Json))
  region : String
  profile_name : Option String
  label : Option String

/-- Rust str::starts_with: the pattern is a byte prefix, which for valid UTF-8
strings is exactly a character-list prefix. -/
def strStartsWith (s pre : String) : Bool := pre.data.isPrefixOf s.data

/-- UseAws::requires_acceptance from src/use_aws.rs. -/
def UseAws.requiresAcceptance (u : UseAws) : Bool :=
  !(READONLY_OPS.any (fun op => strStartsWith u.operation_name op))

/-! ### Kebab-case conversion (the convert_case crate, Case::Kebab, default boundaries) -/

/-- Is the next character a lowercase letter (for the acronym boundary)? -/
def nextIsLower : Option Char → Bool
  | some c => c.isLower
  | none => false

/-- convert_case default word boundaries between adjacent characters p and c
(with lookahead): lower|upper, the acronym boundary upper|upper-lower, and the
four letter/digit transitions. -/
def boundaryBetween (p c : Char) (next : Option Char) : Bool :=
  (p.isLower && c.isUpper) ||
  (p.isUpper && c.isUpper && nextIsLower next) ||
  (p.isLower && c.isDigit) ||
  (p.isUpper && c.isDigit) ||
  (p.isDigit && c.isLower) ||
  (p.isDigit && c.isUpper)

/-- Emit the accumulated (reversed) word, dropping empty words. -/
def wordFlush (cur : List Char) : List (List Char) :=
  if cur.isEmpty then [] else [cur.reverse]

/-- Word splitter: delimiter characters are consumed, case/digit boundaries split. -/
def splitWordsGo : Option Char → List Char → List Char → List (List Char)
  | _, cur, [] => wordFlush cur
  | prev, cur, c :: rest =>
    if c = '_' || c = '-' || c = ' ' then
      wordFlush cur ++ splitWordsGo none [] rest
    else
      match prev with
      | none => splitWordsGo (some c) (c :: cur) rest
      | some p =>
        if boundaryBetween p c rest.head? then
          wordFlush cur ++ splitWordsGo (some c) [c] rest
        else
          splitWordsGo (some c) (c :: cur) rest

/-- Split a string into case words (convert_case default boundaries). -/
def splitWords (s : List Char) : List (List Char) := splitWordsGo none [] s

/-- to_case(Case::Kebab): lowercase words joined with hyphens. -/
def toKebab (s : String) : String :=
  String.intercalate "-" ((splitWords s.data).map (fun w => String.mk (w.map Char.toLower)))

/-- Strip repeated leading occurrences of the exact prefix of two dashes. -/
def trimDashGo : List Char → List Char
  | '-' :: '-' :: rest => trimDashGo rest
  | s => s

/-- Rust str::trim_start_matches with pattern of two dashes. -/
def trimStartDashes (s : String) : String := String.mk (trimDashGo s.data)

/-- The string form of a parameter value: the raw contents for a JSON string,
else the compact serialization (Value::as_str / Value::to_string). -/
def paramValueStr (v : Json) : String :=
  match v with
  | .str s => s
  | v => Json.render v

/-- UseAws::cli_parameters: kebab-cased double-dash flags with string values. -/
def UseAws.cliParameters (u : UseAws) : Option (List (String × String)) :=
  u.parameters.map (fun ps =>
    ps.map (fun p => ("--" ++ toKebab (trimStartDashes p.1), paramValueStr p.2)))

/-- The argument vector built by UseAws::invoke before spawning, in order:
region, optional profile, service, operation, then each parameter flag with
its value omitted when the value string is empty. -/
def UseAws.argv (u : UseAws) : List String :=
  ["--region", u.region] ++
  (match u.profile_name with
   | some p => ["--profile", p]
   | none => []) ++
  [u.service_name, u.operation_name] ++
  (match u.cliParameters with
   | none => []
   | some ps => (ps.map (fun p => if p.2 = "" then [p.1] else [p.1, p.2])).flatten)

/-! ### Description generation (UseAws::queue_description) -/

/-- One rendered parameter line: the bare name for an empty string value,
otherwise name, colon, and the Display (compact JSON) form of the value. -/
def paramLine (p : String × Json) : List Char :=
  match p.2 with
  | .str "" => "- ".data ++ p.1.data ++ "\n".data
  | v => "- ".data ++ p.1.data ++ ": ".data ++ (Json.render v).data ++ "\n".data

/-- The sequence of strings queued by UseAws::queue_description, one list
element per style::Print call, in source order. -/
def descriptionSections (u : UseAws) : List (List Char) :=
  ["Running aws cli command:\n\n".data,
   "Service name: ".data ++ u.service_name.data ++ "\n".data,
   "Operation name: ".data ++ u.operation_name.data ++ "\n".data] ++
  (match u.parameters with
   | none => []
   | some ps => "Parameters: \n".data :: ps.map paramLine) ++
  [(match u.profile_name with
    | some p => "Profile name: ".data ++ p.data ++ "\n".data
    | none => "Profile name: default\n".data)] ++
  ["Region: ".data ++ u.region.data] ++
  (match u.label with
   | some l => ("\nLabel: ".data ++ l.data) :: []
   | none => [])

/-- The full rendered description text. -/
def describe (u : UseAws) : String := String.mk (descriptionSections u).flatten

/-! ### Output truncation (UseAws::invoke) -/

/-- UTF-8 encoded byte length of one character (Rust char::len_utf8). -/
def utf8Len (c : Char) : Nat :=
  if c.toNat < 0x80 then 1 else if c.toNat < 0x800 then 2
  else if c.toNat < 0x10000 then 3 else 4

/-- UTF-8 byte length of a string given as its characters (Rust str::len). -/
def strBytes (s : List Char) : Nat := (s.map utf8Len).sum

/-- Rust byte-indexed string slicing s[0..n]: the characters occupying the
first n bytes, or none (a panic) when n falls strictly inside a character. -/
def takeBytes : List Char → Nat → Option (List Char)
  | _, 0 => some []
  | [], _ + 1 => none
  | c :: cs, n + 1 =>
    if utf8Len c ≤ n + 1 then (takeBytes cs (n + 1 - utf8Len c)).map (fun p => c :: p)
    else none

/-- The truncation marker appended by UseAws::invoke. -/
def truncMarker : List Char := " ... truncated".data

/-- The stdout/stderr truncation step of UseAws::invoke: slice to at most
MAX_TOOL_RESPONSE_SIZE / 3 bytes and append the marker when over budget;
none models the byte-slice panic on a non-boundary index. -/
def truncateOutput (s : List Char) : Option (List Char) :=
  (takeBytes s (min (strBytes s) (MAX_TOOL_RESPONSE_SIZE / 3))).map
    (fun p => p ++ if strBytes s > MAX_TOOL_RESPONSE_SIZE / 3 then truncMarker else [])

/-! ### The invoke path (UseAws::invoke, given a spawned subprocess outcome) -/

/-- The outcome of the spawned subprocess: the optional exit status code and the
lossy-decoded stdout and stderr streams. -/
structure ProcessOutput where
  code : Option Int
  stdout : List Char
  stderr : List Char

/-- CARGO_PKG_VERSION baked into the binary; the manifest is not part of the
sources under study and no claim depends on the value. -/
def cargoPkgVersion : String := "0.1.0"

/-- UseAws::invoke after the subprocess has completed: render the exit status,
truncate both streams independently, and either build the JSON success payload
(exit status zero as a string) or fail carrying the truncated stderr text.
none models a panic inside the truncation step. -/
def invokeModel (_u : UseAws) (out : ProcessOutput) : Option (Except String Json) :=
  match truncateOutput out.stdout, truncateOutput out.stderr with
  | some so, some se =>
    if intToStr (out.code.getD 0) = "0" then
      some (.ok (Json.obj [("exit_status", Json.str (intToStr (out.code.getD 0))),
                          ("stdout", Json.str (String.mk so)),
                          ("stderr", Json.str (String.mk se))]))
    else
      some (.error (String.mk se))
  | _, _ => none

/-- UseAwsResponse from src/use_aws.rs. -/
structure UseAwsResponse where
  exit_status : String
  stdout : String
  stderr : String

/-- From(InvokeOutput) for UseAwsResponse, on the Json output kind: read the
three fields back out of the JSON payload with defaults. -/
def useAwsResponseOfJson (j : Json) : UseAwsResponse :=
  let getStr : Option Json → Option String := fun v =>
    match v with
    | some (.str s) => some s
    | _ => none
  { exit_status := (getStr (j.getField "exit_status")).getD "0"
    stdout := (getStr (j.getField "stdout")).getD ""
    stderr := (getStr (j.getField "stderr")).getD "" }

/-- Derived Serialize for UseAwsResponse: fields in declaration order. -/
def useAwsResponseJson (r : UseAwsResponse) : Json :=
  Json.obj [("exit_status", Json.str r.exit_status),
            ("stdout", Json.str r.stdout),
            ("stderr", Json.str r.stderr)]

/-! ### McpError (src/error.rs) and the JSON-RPC message types (src/mcp_server.rs) -/

/-- McpError from src/error.rs; each variant carries its displayed payload. -/
inductive McpError where
  | JsonRpc (s : String)
  | Serialization (s : String)
  | Io (s : String)
  | AwsCli (s : String)
  | ToolExecution (s : String)
  | InvalidRequest (s : String)

/-- JsonRpcRequest from src/mcp_server.rs. -/
structure JsonRpcRequest where
  jsonrpc : String
  id : Json
  method : String
  params : Option Json

/-- JsonRpcError from src/mcp_server.rs. -/
structure JsonRpcError where
  code : Int
  message : String
  data : Option Json

/-- JsonRpcResponse from src/mcp_server.rs; result and error are skipped on the
wire when absent. -/
structure JsonRpcResponse where
  jsonrpc : String
  id : Json
  result : Option Json
  error : Option JsonRpcError

/-- JsonRpcNotification from src/mcp_server.rs. -/
structure JsonRpcNotification where
  jsonrpc : String
  method : String
  params : Option Json

/-- The untagged JsonRpcMessage union, variants in declaration order. -/
inductive JsonRpcMessage where
  | request (r : JsonRpcRequest)
  | response (r : JsonRpcResponse)
  | notification (n : JsonRpcNotification)

/-- ToolCall from src/mcp_server.rs. -/
structure ToolCall where
  name : String
  arguments : Json

/-! ### serde deserialization of the message and argument structures -/

/-- serde: a required String field. -/
def asString : Json → Except String String
  | .str s => .ok s
  | _ => .error "invalid type: expected a string"

/-- serde: an Option of String; null becomes none. -/
def asOptString : Json → Except String (Option String)
  | .null => .ok none
  | .str s => .ok (some s)
  | _ => .error "invalid type: expected a string or null"

/-- serde: an Option of a map from String to Value; null becomes none. -/
def asOptParams : Json → Except String (Option (List (String × Json)))
  | .null => .ok none
  | .obj fs => .ok (some fs)
  | _ => .error "invalid type: expected a map or null"

/-- serde: an Option of Value; null becomes none. -/
def asOptValue (j : Json) : Option Json :=
  match j with
  | .null => none
  | v => some v

/-- Field accumulator step for deserializing ToolCall: record each known field,
rejecting duplicates, ignoring unknown fields. -/
def toolCallFields : List (String × Json) → Option String → Option Json →
    Except String ToolCall
  | [], nameF, argsF =>
    match nameF, argsF with
    | some n, some a => .ok ⟨n, a⟩
    | none, _ => .error "missing field name"
    | _, none => .error "missing field arguments"
  | (k, v) :: rest, nameF, argsF =>
    if k = "name" then
      match nameF with
      | some _ => .error "duplicate field name"
      | none =>
        match asString v with
        | .ok s => toolCallFields rest (some s) argsF
        | .error e => .error e
    else if k = "arguments" then
      match argsF with
      | some _ => .error "duplicate field arguments"
      | none => toolCallFields rest nameF (some v)
    else
      toolCallFields rest nameF argsF

/-- serde deserialization of ToolCall from a Value. -/
def decodeToolCall : Json → Except String ToolCall
  | .obj fs => toolCallFields fs none none
  | _ => .error "invalid type: expected struct ToolCall"

/-- Field accumulator for deserializing UseAwsRequest: the three required
string fields, the optional parameter map, and the two optional strings. -/
def useAwsFields : List (String × Json) → Option String → Option String →
    Option (Option (List (String × Json))) → Option String →
    Option (Option String) → Option (Option String) → Except String UseAws
  | [], svcF, opF, paramsF, regionF, profF, labelF =>
    match svcF, opF, regionF with
    | some svc, some op, some reg =>
      .ok ⟨svc, op, paramsF.join, reg, profF.join, labelF.join⟩
    | none, _, _ => .error "missing field service_name"
    | _, none, _ => .error "missing field operation_name"
    | _, _, none => .error "missing field region"
  | (k, v) :: rest, svcF, opF, paramsF, regionF, profF, labelF =>
    if k = "service_name" then
      match svcF, asString v with
      | some _, _ => .error "duplicate field service_name"
      | none, .error e => .error e
      | none, .ok s => useAwsFields rest (some s) opF paramsF regionF profF labelF
    else if k = "operation_name" then
      match opF, asString v with
      | some _, _ => .error "duplicate field operation_name"
      | none, .error e => .error e
      | none, .ok s => useAwsFields rest svcF (some s) paramsF regionF profF labelF
    else if k = "parameters" then
      match paramsF, asOptParams v with
      | some _, _ => .error "duplicate field parameters"
      | none, .error e => .error e
      | none, .ok p => useAwsFields rest svcF opF (some p) regionF profF labelF
    else if k = "region" then
      match regionF, asString v with
      | some _, _ => .error "duplicate field region"
      | none, .error e => .error e
      | none, .ok s => useAwsFields rest svcF opF paramsF (some s) profF labelF
    else if k = "profile_name" then
      match profF, asOptString v with
      | some _, _ => .error "duplicate field profile_name"
      | none, .error e => .error e
      | none, .ok s => useAwsFields rest svcF opF paramsF regionF (some s) labelF
    else if k = "label" then
      match labelF, asOptString v with
      | some _, _ => .error "duplicate field label"
      | none, .error e => .error e
      | none, .ok s => useAwsFields rest svcF opF paramsF regionF profF (some s)
    else
      useAwsFields rest svcF opF paramsF regionF profF labelF

/-- serde deserialization of UseAwsRequest from a Value (UseAws has the same
fields, and From(UseAwsRequest) for UseAws is the identity on them). -/
def decodeUseAwsRequest : Json → Except String UseAws
  | .obj fs => useAwsFields fs none none none none none none
  | _ => .error "invalid type: expected struct UseAwsRequest"

/-! ### The tools/call handler (AwsMcpServer::handle_tool_call) -/

/-- The result of the tools/call handler: the handler outcome (none models a
panic) together with the list of subprocess invocations it performed. -/
structure ToolCallOut where
  result : Option (Except McpError JsonRpcResponse)
  invoked : List UseAws

/-- A success response carrying a result payload. -/
def okResponse (id : Json) (v : Json) : JsonRpcResponse :=
  ⟨"2.0", id, some v, none⟩

/-- An error response carrying code and message. -/
def errResponse (id : Json) (code : Int) (msg : String) : JsonRpcResponse :=
  ⟨"2.0", id, none, some ⟨code, msg, none⟩⟩

/-- AwsMcpServer::handle_tool_call, parameterized by the subprocess oracle:
missing params and argument deserialization failures are returned as McpError
values (not responses); an unknown tool name yields a -32601 error response;
otherwise the description is generated, the subprocess invoked, and either the
success content or a -32000 error response is produced. -/
def handleToolCall (runProc : UseAws → ProcessOutput) (id : Json)
    (params? : Option Json) : ToolCallOut :=
  match params? with
  | none => ⟨some (.error (.InvalidRequest "Missing params for tools/call")), []⟩
  | some params =>
    match decodeToolCall params with
    | .error e => ⟨some (.error (.Serialization e)), []⟩
    | .ok tc =>
      if tc.name ≠ "use_aws" then
        ⟨some (.ok (errResponse id (-32601) ("Tool \x27" ++ tc.name ++ "\x27 not found"))), []⟩
      else
        match decodeUseAwsRequest tc.arguments with
        | .error e => ⟨some (.error (.Serialization e)), []⟩
        | .ok u =>
          let desc := describe u
          match invokeModel u (runProc u) with
          | none => ⟨none, [u]⟩
          | some (.ok j) =>
            let resp := useAwsResponseOfJson j
            let text := desc ++ "\n\nResult:\n" ++ Json.render (useAwsResponseJson resp)
            ⟨some (.ok (okResponse id (Json.obj [("content",
              Json.arr [Json.obj [("type", Json.str "text"), ("text", Json.str text)]])]))), [u]⟩
          | some (.error msg) =>
            ⟨some (.ok (errResponse id (-32000) ("Tool execution failed: " ++ msg))), [u]⟩

/-! ### Request dispatch and the read loop (AwsMcpServer::run) -/

/-- The outcome of reading schema.json for tools/list: the read can fail, the
parse can fail, or a parsed document is available. -/
inductive SchemaSource where
  | readErr (msg : String)
  | parseErr (msg : String)
  | parsed (j : Json)

/-- The environment of the server: the subprocess oracle and the schema file. -/
structure ServerEnv where
  runProc : UseAws → ProcessOutput
  schema : SchemaSource

/-- AwsMcpServer::handle_initialize: the static capability document. -/
def initResponse (id : Json) : JsonRpcResponse :=
  okResponse id (Json.obj
    [("protocolVersion", Json.str "2024-11-05"),
     ("capabilities", Json.obj [("tools", Json.obj [("listChanged", Json.bool true)])]),
     ("serverInfo", Json.obj [("name", Json.str "use_aws"),
                              ("version", Json.str cargoPkgVersion)])])

/-- AwsMcpServer::handle_tools_list: read and parse schema.json, require its
top-level tools key, wrapping failures as -32603 error responses. -/
def toolsListResponse (s : SchemaSource) (id : Json) : JsonRpcResponse :=
  match s with
  | .readErr e => errResponse id (-32603) ("Failed to read schema.json: " ++ e)
  | .parseErr e => errResponse id (-32603) ("Failed to parse schema.json: " ++ e)
  | .parsed j =>
    match j.getField "tools" with
    | some tools => okResponse id (Json.obj [("tools", tools)])
    | none => errResponse id (-32603) "schema.json does not contain a \x27tools\x27 key"

/-- AwsMcpServer::handle_request: dispatch on the method name. -/
def handleRequest (env : ServerEnv) (req : JsonRpcRequest) :
    Option (Except McpError JsonRpcResponse) × List UseAws :=
  if req.method = "initialize" then
    (some (.ok (initResponse req.id)), [])
  else if req.method = "tools/call" then
    let o := handleToolCall env.runProc req.id req.params
    (o.result, o.invoked)
  else if req.method = "tools/list" then
    (some (.ok (toolsListResponse env.schema req.id)), [])
  else
    (some (.ok (errResponse req.id (-32601)
      ("Method \x27" ++ req.method ++ "\x27 not found"))), [])

/-- AwsMcpServer::handle_message: requests produce a response, notifications
and (ignored) responses produce none. -/
def handleMessage (env : ServerEnv) (m : JsonRpcMessage) :
    Option (Except McpError (Option JsonRpcResponse)) × List UseAws :=
  match m with
  | .request req =>
    match handleRequest env req with
    | (none, inv) => (none, inv)
    | (some (.error e), inv) => (some (.error e), inv)
    | (some (.ok r), inv) => (some (.ok (some r)), inv)
  | .notification _ => (some (.ok none), [])
  | .response _ => (some (.ok none), [])

/-- How the read loop of AwsMcpServer::run ends: the input stream exhausted,
the loop aborted by an McpError escaping a handler, or a panic. -/
inductive LoopEnd where
  | done
  | failed (e : McpError)
  | panicked

/-- The sequential read loop of AwsMcpServer::run over a stream of decoded
messages: each response is written before the next message is read, a handler
error aborts the loop, a panic kills the process. -/
def runLoop (env : ServerEnv) : List JsonRpcMessage → List JsonRpcResponse × LoopEnd
  | [] => ([], .done)
  | m :: rest =>
    match (handleMessage env m).1 with
    | none => ([], .panicked)
    | some (.error e) => ([], .failed e)
    | some (.ok none) => runLoop env rest
    | some (.ok (some r)) =>
      let o := runLoop env rest
      (r :: o.1, o.2)

/-! ### Wire encoding and untagged decoding of messages (serde on JsonRpcMessage) -/

/-- Serialize for JsonRpcError: code, message, and data only when present. -/
def encodeError (e : JsonRpcError) : Json :=
  Json.obj ([("code", Json.num e.code), ("message", Json.str e.message)] ++
    (match e.data with
     | some d => [("data", d)]
     | none => []))

/-- Serialize for JsonRpcResponse: jsonrpc and id always; result and error are
skipped when absent (skip_serializing_if Option::is_none). -/
def encodeResponse (r : JsonRpcResponse) : Json :=
  Json.obj ([("jsonrpc", Json.str r.jsonrpc), ("id", r.id)] ++
    (match r.result with
     | some v => [("result", v)]
     | none => []) ++
    (match r.error with
     | some e => [("error", encodeError e)]
     | none => []))

/-- serde deserialization of JsonRpcRequest: jsonrpc, id and method required,
params optional. -/
def requestFields : List (String × Json) → Option String → Option Json →
    Option String → Option (Option Json) → Except String JsonRpcRequest
  | [], verF, idF, methodF, paramsF =>
    match verF, idF, methodF with
    | some ver, some id, some m => .ok ⟨ver, id, m, paramsF.join⟩
    | none, _, _ => .error "missing field jsonrpc"
    | _, none, _ => .error "missing field id"
    | _, _, none => .error "missing field method"
  | (k, v) :: rest, verF, idF, methodF, paramsF =>
    if k = "jsonrpc" then
      match verF, asString v with
      | some _, _ => .error "duplicate field jsonrpc"
      | none, .error e => .error e
      | none, .ok s => requestFields rest (some s) idF methodF paramsF
    else if k = "id" then
      match idF with
      | some _ => .error "duplicate field id"
      | none => requestFields rest verF (some v) methodF paramsF
    else if k = "method" then
      match methodF, asString v with
      | some _, _ => .error "duplicate field method"
      | none, .error e => .error e
      | none, .ok s => requestFields rest verF idF (some s) paramsF
    else if k = "params" then
      match paramsF with
      | some _ => .error "duplicate field params"
      | none => requestFields rest verF idF methodF (some (asOptValue v))
    else
      requestFields rest verF idF methodF paramsF

/-- serde deserialization of JsonRpcRequest from a Value. -/
def decodeRequest : Json → Except String JsonRpcRequest
  | .obj fs => requestFields fs none none none none
  | _ => .error "invalid type: expected struct JsonRpcRequest"

/-- serde deserialization of the JsonRpcError fields: code and message
required, data optional. -/
def rpcErrorFields : List (String × Json) → Option Int → Option String →
    Option (Option Json) → Except String JsonRpcError
  | [], codeF, msgF, dataF =>
    match codeF, msgF with
    | some c, some m => .ok ⟨c, m, dataF.join⟩
    | none, _ => .error "missing field code"
    | _, none => .error "missing field message"
  | (k, v) :: rest, codeF, msgF, dataF =>
    if k = "code" then
      match codeF, v with
      | some _, _ => .error "duplicate field code"
      | none, .num n => rpcErrorFields rest (some n) msgF dataF
      | none, _ => .error "invalid type: expected i32"
    else if k = "message" then
      match msgF, asString v with
      | some _, _ => .error "duplicate field message"
      | none, .error e => .error e
      | none, .ok s => rpcErrorFields rest codeF (some s) dataF
    else if k = "data" then
      match dataF with
      | some _ => .error "duplicate field data"
      | none => rpcErrorFields rest codeF msgF (some (asOptValue v))
    else
      rpcErrorFields rest codeF msgF dataF

/-- serde deserialization of JsonRpcError from a Value. -/
def decodeRpcError : Json → Except String JsonRpcError
  | .obj fs => rpcErrorFields fs none none none
  | _ => .error "invalid type: expected struct JsonRpcError"

/-- serde deserialization of JsonRpcResponse: jsonrpc and id required, result
and error optional. -/
def responseFields : List (String × Json) → Option String → Option Json →
    Option (Option Json) → Option (Option JsonRpcError) →
    Except String JsonRpcResponse
  | [], verF, idF, resultF, errorF =>
    match verF, idF with
    | some ver, some id => .ok ⟨ver, id, resultF.join, errorF.join⟩
    | none, _ => .error "missing field jsonrpc"
    | _, none => .error "missing field id"
  | (k, v) :: rest, verF, idF, resultF, errorF =>
    if k = "jsonrpc" then
      match verF, asString v with
      | some _, _ => .error "duplicate field jsonrpc"
      | none, .error e => .error e
      | none, .ok s => responseFields rest (some s) idF resultF errorF
    else if k = "id" then
      match idF with
      | some _ => .error "duplicate field id"
      | none => responseFields rest verF (some v) resultF errorF
    else if k = "result" then
      match resultF with
      | some _ => .error "duplicate field result"
      | none => responseFields rest verF idF (some (asOptValue v)) errorF
    else if k = "error" then
      match errorF, v with
      | some _, _ => .error "duplicate field error"
      | none, .null => responseFields rest verF idF resultF (some none)
      | none, v =>
        match decodeRpcError v with
        | .error e => .error e
        | .ok err => responseFields rest verF idF resultF (some (some err))
    else
      responseFields rest verF idF resultF errorF

/-- serde deserialization of JsonRpcResponse from a Value. -/
def decodeResponse : Json → Except String JsonRpcResponse
  | .obj fs => responseFields fs none none none none
  | _ => .error "invalid type: expected struct JsonRpcResponse"

/-- serde deserialization of JsonRpcNotification: jsonrpc and method required,
params optional, and no id field requirement. -/
def notificationFields : List (String × Json) → Option String → Option String →
    Option (Option Json) → Except String JsonRpcNotification
  | [], verF, methodF, paramsF =>
    match verF, methodF with
    | some ver, some m => .ok ⟨ver, m, paramsF.join⟩
    | none, _ => .error "missing field jsonrpc"
    | _, none => .error "missing field method"
  | (k, v) :: rest, verF, methodF, paramsF =>
    if k = "jsonrpc" then
      match verF, asString v with
      | some _, _ => .error "duplicate field jsonrpc"
      | none, .error e => .error e
      | none, .ok s => notificationFields rest (some s) methodF paramsF
    else if k = "method" then
      match methodF, asString v with
      | some _, _ => .error "duplicate field method"
      | none, .error e => .error e
      | none, .ok s => notificationFields rest verF (some s) paramsF
    else if k = "params" then
      match paramsF with
      | some _ => .error "duplicate field params"
      | none => notificationFields rest verF methodF (some (asOptValue v))
    else
      notificationFields rest verF methodF paramsF

/-- serde deserialization of JsonRpcNotification from a Value. -/
def decodeNotification : Json → Except String JsonRpcNotification
  | .obj fs => notificationFields fs none none none
  | _ => .error "invalid type: expected struct JsonRpcNotification"

/-- The untagged deserialization of JsonRpcMessage: try Request, then Response,
then Notification, in declaration order. -/
def decodeMessage (j : Json) : Except String JsonRpcMessage :=
  match decodeRequest j with
  | .ok r => .ok (.request r)
  | .error _ =>
    match decodeResponse j with
    | .ok r => .ok (.response r)
    | .error _ =>
      match decodeNotification j with
      | .ok n => .ok (.notification n)
      | .error _ => .error "data did not match any variant of untagged enum JsonRpcMessage"

/-! ## Concrete fixtures used by witnesses and counterexamples -/

/-- A subprocess oracle that always exits 0 with empty output. -/
def oracleOk : UseAws → ProcessOutput := fun _ => ⟨some 0, [], []⟩

/-- A subprocess oracle that always exits 1 with stderr boom. -/
def oracleBoom : UseAws → ProcessOutput := fun _ => ⟨some 1, [], "boom".data⟩

/-- A server environment over oracleOk with a parsed empty schema document. -/
def env0 : ServerEnv := ⟨oracleOk, .parsed (Json.obj [("tools", Json.arr [])])⟩

/-- A server environment over oracleBoom with a parsed empty schema document. -/
def envBoom : ServerEnv := ⟨oracleBoom, .parsed (Json.obj [("tools", Json.arr [])])⟩

/-- Valid tools/call arguments for a read-only style command. -/
def c3args : Json := Json.obj [("service_name", Json.str "s3"),
  ("operation_name", Json.str "rm"), ("region", Json.str "us-west-2")]

/-- Valid tools/call params wrapping c3args. -/
def c3params : Json := Json.obj [("name", Json.str "use_aws"), ("arguments", c3args)]

/-- The command spec decoded from c3args. -/
def c3spec : UseAws := ⟨"s3", "rm", none, "us-west-2", none, none⟩

/-- Valid tools/call arguments for a mutating command. -/
def mutArgs : Json := Json.obj [("service_name", Json.str "s3"),
  ("operation_name", Json.str "put-object"), ("region", Json.str "us-west-2")]

/-- Valid tools/call params wrapping mutArgs. -/
def mutParams : Json := Json.obj [("name", Json.str "use_aws"), ("arguments", mutArgs)]

/-- The command spec decoded from mutArgs. -/
def mutSpec : UseAws := ⟨"s3", "put-object", none, "us-west-2", none, none⟩

/-- A command spec exercising both parameter flag forms. -/
def c6spec : UseAws :=
  ⟨"dynamodb", "query", some [("TableName", Json.str "t"), ("Flag", Json.str "")],
   "us-west-2", some "dev", none⟩

/-- An all-ASCII stream one byte over the per-stream slice. -/
def bigOut : List Char := List.replicate 33334 'a'

/-- An all-ASCII stream of 40000 bytes: over a third of the budget but within
half of it. -/
def overHalfOut : List Char := List.replicate 40000 'a'

/-- A stream whose MAX_TOOL_RESPONSE_SIZE / 3 byte index falls strictly inside
the two-byte character at its end. -/
def badOutput : List Char := List.replicate 33332 'a' ++ ['é']

/-- The shape of every response this server constructs: protocol version 2.0,
and either a non-null result with no error, or no result and an error carrying
no data field. -/
def GoodResp (r : JsonRpcResponse) : Prop :=
  r.jsonrpc = "2.0" ∧
  ((∃ v, r.result = some v ∧ v ≠ Json.null ∧ r.error = none) ∨
   (r.result = none ∧ ∃ c msg, r.error = some ⟨c, msg, none⟩))

/-! ## Claim C5: the acceptance policy -/

/-- Claim C5: the Acceptance Policy is a deterministic total Boolean function of
the operation name; it answers does-not-require-acceptance exactly when the
operation name starts with one of the fixed read-only prefixes in READONLY_OPS,
and requires acceptance for every other operation name, in particular the empty
string. -/
theorem C5_acceptance_policy :
    (∀ u : UseAws, u.requiresAcceptance = false ↔
      ∃ p ∈ READONLY_OPS, p.data <+: u.operation_name.data) ∧
    UseAws.requiresAcceptance ⟨"s3", "", none, "us-east-1", none, none⟩ = true := by
  constructor
  · intro u
    simp [UseAws.requiresAcceptance, strStartsWith, List.any_eq_true,
      List.isPrefixOf_iff_prefix]
  · decide

/-! ## Claim C7: unknown tool name -/

/-- Claim C7: a tools/call whose tool name is not the registered identifier
yields a well-formed response with error code -32601 whose result field is
absent (also on the wire), and no subprocess is invoked. -/
theorem C7_unknown_tool_name (runProc : UseAws → ProcessOutput) (id : Json)
    (name : String) (args : Json) (h : name ≠ "use_aws") :
    handleToolCall runProc id (some (Json.obj [("name", Json.str name), ("arguments", args)])) =
      ⟨some (.ok ⟨"2.0", id, none,
        some ⟨-32601, "Tool \x27" ++ name ++ "\x27 not found", none⟩⟩), []⟩ ∧
    Json.getField
      (encodeResponse (errResponse id (-32601) ("Tool \x27" ++ name ++ "\x27 not found")))
      "result" = none := by
  have hd : decodeToolCall (Json.obj [("name", Json.str name), ("arguments", args)]) =
      .ok ⟨name, args⟩ := rfl
  refine ⟨?_, rfl⟩
  simp [handleToolCall, hd, h, errResponse]

/-- Witness for C7 at the concrete tool name other. -/
theorem C7_unknown_tool_name_witness :
    handleToolCall oracleOk (Json.num 5)
        (some (Json.obj [("name", Json.str "other"), ("arguments", Json.null)])) =
      ⟨some (.ok ⟨"2.0", Json.num 5, none,
        some ⟨-32601, "Tool \x27other\x27 not found", none⟩⟩), []⟩ ∧
    Json.getField
      (encodeResponse (errResponse (Json.num 5) (-32601) "Tool \x27other\x27 not found"))
      "result" = none :=
  C7_unknown_tool_name oracleOk (Json.num 5) "other" Json.null (by decide)

/-! ## Claim C10: the acceptance policy is never consulted by the handler -/

/-- Claim C10: for every tools/call request with valid arguments the subprocess
is invoked unconditionally, exactly once, with exactly the decoded command
spec, whatever the value of requiresAcceptance for that spec: the policy has no
observable effect on the handler. -/
theorem C10_policy_unused (runProc : UseAws → ProcessOutput) (id : Json)
    (params : Json) (tc : ToolCall) (u : UseAws)
    (h1 : decodeToolCall params = .ok tc) (h2 : tc.name = "use_aws")
    (h3 : decodeUseAwsRequest tc.arguments = .ok u) :
    (handleToolCall runProc id (some params)).invoked = [u] := by
  simp only [handleToolCall, h1, h2, h3]
  simp only [ne_eq, not_true_eq_false, if_false, ite_false]
  rcases hM : invokeModel u (runProc u) with _ | (m | j) <;> simp [hM]

/-- Witness for C10 at a mutating command spec (one that requires acceptance). -/
theorem C10_policy_unused_witness :
    (handleToolCall oracleOk (Json.num 6) (some mutParams)).invoked = [mutSpec] ∧
    mutSpec.requiresAcceptance = true :=
  ⟨C10_policy_unused oracleOk (Json.num 6) mutParams ⟨"use_aws", mutArgs⟩ mutSpec rfl rfl rfl,
   by decide⟩

/-! ## Claim C4: when is the Parameters section emitted -/

/-- Claim C4 counterexample: a command spec whose parameter mapping is present
but empty still gets the Parameters header both as a queued section and as a
substring of the rendered description, contradicting the claim that no
Parameters section appears for an empty mapping. -/
theorem C4_empty_map_counterexample :
    "Parameters: \n".data ∈
      descriptionSections ⟨"ec2", "describe-instances", some [], "us-east-1", none, none⟩ ∧
    "Parameters: \n".data <:+:
      (describe ⟨"ec2", "describe-instances", some [], "us-east-1", none, none⟩).data := by
  constructor
  · decide
  · decide

/-- Claim C4 (amended): the description omits the Parameters section exactly
when the parameter mapping is absent; a present mapping, even an empty one,
makes queue_description print the Parameters header. -/
theorem C4_params_header_iff_present (u : UseAws) :
    "Parameters: \n".data ∈ descriptionSections u ↔ u.parameters.isSome = true := by
  cases hp : u.parameters with
  | some ps => simp [descriptionSections, hp]
  | none =>
    cases hprof : u.profile_name <;> cases hl : u.label <;>
      simp [descriptionSections, hp, hprof, hl]

/-! ## Byte-accounting lemmas for the truncation step -/

theorem takeBytes_zero (s : List Char) : takeBytes s 0 = some [] := by
  cases s <;> rfl

theorem takeBytes_cons (c : Char) (cs : List Char) (n : Nat) :
    takeBytes (c :: cs) (n + 1) =
      if utf8Len c ≤ n + 1 then (takeBytes cs (n + 1 - utf8Len c)).map (fun p => c :: p)
      else none := rfl

theorem utf8Len_pos (c : Char) : 0 < utf8Len c := by
  unfold utf8Len; split_ifs <;> omega

theorem utf8Len_a : utf8Len 'a' = 1 := rfl

theorem strBytes_nil : strBytes [] = 0 := rfl

theorem strBytes_cons (c : Char) (cs : List Char) :
    strBytes (c :: cs) = utf8Len c + strBytes cs := by
  simp [strBytes]

theorem strBytes_append (a b : List Char) : strBytes (a ++ b) = strBytes a + strBytes b := by
  simp [strBytes]

theorem strBytes_replicate (k : Nat) (c : Char) :
    strBytes (List.replicate k c) = k * utf8Len c := by
  induction k with
  | zero => simp [strBytes]
  | succ n ih => rw [List.replicate_succ, strBytes_cons, ih]; ring

theorem takeBytes_append_of_le (xs ys : List Char) (n : Nat) (h : strBytes xs ≤ n) :
    takeBytes (xs ++ ys) n = (takeBytes ys (n - strBytes xs)).map (fun t => xs ++ t) := by
  induction xs generalizing n with
  | nil =>
    rw [List.nil_append, strBytes_nil, Nat.sub_zero]
    cases takeBytes ys n <;> simp
  | cons c cs ih =>
    have hc := utf8Len_pos c
    rw [strBytes_cons] at h
    obtain ⟨m, rfl⟩ : ∃ m, n = m + 1 := ⟨n - 1, by omega⟩
    rw [List.cons_append, takeBytes_cons, if_pos (by omega), ih _ (by omega)]
    have harg : m + 1 - utf8Len c - strBytes cs = m + 1 - (utf8Len c + strBytes cs) := by omega
    rw [harg, Option.map_map]
    rfl

theorem takeBytes_full (s : List Char) : takeBytes s (strBytes s) = some s := by
  have h := takeBytes_append_of_le s [] (strBytes s) le_rfl
  rw [List.append_nil, Nat.sub_self, takeBytes_zero] at h
  simpa using h

theorem takeBytes_some_take (s : List Char) (n : Nat) (p : List Char)
    (h : takeBytes s n = some p) : ∃ k, p = s.take k ∧ strBytes p = n := by
  induction s generalizing n p with
  | nil =>
    cases n with
    | zero =>
      rw [takeBytes_zero] at h
      obtain rfl : ([] : List Char) = p := Option.some.inj h
      exact ⟨0, rfl, rfl⟩
    | succ m => simp [takeBytes] at h
  | cons c cs ih =>
    cases n with
    | zero =>
      rw [takeBytes_zero] at h
      obtain rfl : ([] : List Char) = p := Option.some.inj h
      exact ⟨0, rfl, rfl⟩
    | succ m =>
      rw [takeBytes_cons] at h
      by_cases hc : utf8Len c ≤ m + 1
      · rw [if_pos hc] at h
        obtain ⟨q, hq, rfl⟩ := Option.map_eq_some'.mp h
        obtain ⟨k, rfl, hk⟩ := ih _ _ hq
        exact ⟨k + 1, by simp, by rw [strBytes_cons, hk]; omega⟩
      · rw [if_neg hc] at h
        simp at h

theorem shareThird : MAX_TOOL_RESPONSE_SIZE / 3 = 33333 := rfl

theorem truncate_of_le (s : List Char) (h : strBytes s ≤ MAX_TOOL_RESPONSE_SIZE / 3) :
    truncateOutput s = some s := by
  unfold truncateOutput
  rw [min_eq_left h, takeBytes_full]
  simp [Nat.not_lt.mpr h]

theorem truncate_of_gt (s : List Char) (h : MAX_TOOL_RESPONSE_SIZE / 3 < strBytes s) :
    truncateOutput s =
      (takeBytes s (MAX_TOOL_RESPONSE_SIZE / 3)).map (fun p => p ++ truncMarker) := by
  unfold truncateOutput
  rw [min_eq_right (le_of_lt h)]
  simp [h]

theorem takeBytes_replicate_a (k n : Nat) (h : n ≤ k) :
    takeBytes (List.replicate k 'a') n = some (List.replicate n 'a') := by
  have hsplit : List.replicate k 'a' = List.replicate n 'a' ++ List.replicate (k - n) 'a' := by
    rw [← List.replicate_add]; congr 1; omega
  have hb : strBytes (List.replicate n 'a') = n := by rw [strBytes_replicate, utf8Len_a]; ring
  rw [hsplit, takeBytes_append_of_le _ _ _ (by omega), hb]
  simp [takeBytes_zero]

theorem truncate_bigOut : truncateOutput bigOut = some (List.replicate 33333 'a' ++ truncMarker) := by
  have hb : strBytes bigOut = 33334 := by
    rw [bigOut, strBytes_replicate, utf8Len_a]
  have hgt : MAX_TOOL_RESPONSE_SIZE / 3 < strBytes bigOut := by
    rw [hb]; decide
  have htb : takeBytes bigOut (MAX_TOOL_RESPONSE_SIZE / 3) = some (List.replicate 33333 'a') := by
    rw [shareThird, bigOut]; exact takeBytes_replicate_a 33334 33333 (by omega)
  rw [truncate_of_gt _ hgt, htb]
  rfl

theorem truncate_overHalf :
    truncateOutput overHalfOut = some (List.replicate 33333 'a' ++ truncMarker) := by
  have hb : strBytes overHalfOut = 40000 := by
    rw [overHalfOut, strBytes_replicate, utf8Len_a]
  have hgt : MAX_TOOL_RESPONSE_SIZE / 3 < strBytes overHalfOut := by
    rw [hb]; decide
  have htb : takeBytes overHalfOut (MAX_TOOL_RESPONSE_SIZE / 3) =
      some (List.replicate 33333 'a') := by
    rw [shareThird, overHalfOut]; exact takeBytes_replicate_a 40000 33333 (by omega)
  rw [truncate_of_gt _ hgt, htb]
  rfl

/-! ## Claim C2: the per-stream truncation budget -/

/-- Claim C2 counterexample: a 40000-byte ASCII stream is within half of the
total budget (100000 / 2 = 50000), so under the claim it would be returned
unmodified; the code truncates it, because the actual per-stream share is
MAX_TOOL_RESPONSE_SIZE / 3 = 33333 bytes. -/
theorem C2_half_share_counterexample :
    truncateOutput overHalfOut ≠ some overHalfOut ∧
    strBytes overHalfOut ≤ MAX_TOOL_RESPONSE_SIZE / 2 := by
  constructor
  · rw [truncate_overHalf]
    intro h
    have h2 := Option.some.inj h
    have h3 := congrArg List.length h2
    rw [List.length_append, List.length_replicate, overHalfOut, List.length_replicate] at h3
    have h4 : truncMarker.length = 14 := rfl
    omega
  · rw [overHalfOut, strBytes_replicate, utf8Len_a]
    decide

/-- Claim C2 (amended): each of stdout and stderr is independently truncated to
a third (not half) of MAX_TOOL_RESPONSE_SIZE: a stream within 33333 bytes is
returned unmodified, a longer one is cut to a 33333-byte prefix with the
truncation marker appended, and a successful invoke carries exactly the two
independently truncated streams. -/
theorem C2_truncation_share (s : List Char) :
    (strBytes s ≤ MAX_TOOL_RESPONSE_SIZE / 3 → truncateOutput s = some s) ∧
    (MAX_TOOL_RESPONSE_SIZE / 3 < strBytes s → ∀ t, truncateOutput s = some t →
      ∃ k, t = s.take k ++ truncMarker ∧ strBytes (s.take k) = MAX_TOOL_RESPONSE_SIZE / 3) ∧
    (∀ u out j, invokeModel u out = some (.ok j) →
      ∃ so se, truncateOutput out.stdout = some so ∧ truncateOutput out.stderr = some se ∧
        j = Json.obj [("exit_status", Json.str (intToStr (out.code.getD 0))),
                      ("stdout", Json.str (String.mk so)),
                      ("stderr", Json.str (String.mk se))]) := by
  refine ⟨truncate_of_le s, fun hgt t ht => ?_, fun u out j hj => ?_⟩
  · rw [truncate_of_gt _ hgt] at ht
    obtain ⟨p, hp, rfl⟩ := Option.map_eq_some'.mp ht
    obtain ⟨k, rfl, hk⟩ := takeBytes_some_take _ _ _ hp
    exact ⟨k, rfl, hk⟩
  · unfold invokeModel at hj
    rcases hso : truncateOutput out.stdout with _ | so <;> rw [hso] at hj
    · simp at hj
    · rcases hse : truncateOutput out.stderr with _ | se <;> rw [hse] at hj
      · simp at hj
      · dsimp only at hj
        by_cases h0 : intToStr (out.code.getD 0) = "0"
        · rw [if_pos h0] at hj
          simp only [Option.some.injEq, Except.ok.injEq] at hj
          subst hj
          exact ⟨so, se, rfl, rfl, rfl⟩
        · rw [if_neg h0] at hj
          simp at hj

/-- Witness for C2: a stream within the share is unchanged, the 33334-byte
stream is cut to a 33333-byte prefix plus marker, and a successful empty-output
invoke carries both truncated streams. -/
theorem C2_truncation_share_witness :
    truncateOutput ['h', 'i'] = some ['h', 'i'] ∧
    (∃ k, List.replicate 33333 'a' ++ truncMarker = bigOut.take k ++ truncMarker ∧
      strBytes (bigOut.take k) = MAX_TOOL_RESPONSE_SIZE / 3) ∧
    (∃ so se, truncateOutput (oracleOk c3spec).stdout = some so ∧
      truncateOutput (oracleOk c3spec).stderr = some se ∧
      Json.obj [("exit_status", Json.str "0"), ("stdout", Json.str ""), ("stderr", Json.str "")] =
        Json.obj [("exit_status", Json.str (intToStr ((oracleOk c3spec).code.getD 0))),
          ("stdout", Json.str (String.mk so)), ("stderr", Json.str (String.mk se))]) :=
  ⟨(C2_truncation_share ['h', 'i']).1 (by decide),
   (C2_truncation_share bigOut).2.1
     (by rw [bigOut, strBytes_replicate, utf8Len_a, shareThird]; omega) _ truncate_bigOut,
   (C2_truncation_share []).2.2 c3spec (oracleOk c3spec)
     (Json.obj [("exit_status", Json.str "0"), ("stdout", Json.str ""), ("stderr", Json.str "")])
     rfl⟩

/-! ## Claim C9: the truncation slice can panic inside a multi-byte character -/

/-- Claim C9: evaluation of the truncation step at the failing input: an output
of 33332 ASCII bytes followed by one two-byte character makes the byte index
33333 fall strictly inside that character, so the byte slice s[0..33333]
panics (modelled as none) instead of succeeding as the claim asserts. -/
theorem C9_truncation_panics : truncateOutput badOutput = none := by
  have hb : strBytes badOutput = 33334 := by
    rw [badOutput, strBytes_append, strBytes_replicate, utf8Len_a]
    decide
  rw [truncate_of_gt _ (by rw [hb, shareThird]; omega), shareThird, badOutput,
    takeBytes_append_of_le _ _ _ (by rw [strBytes_replicate, utf8Len_a]; omega),
    strBytes_replicate, utf8Len_a]
  rfl

/-! ## Decimal rendering lemmas for the exit-status check -/

theorem natStrGo_ne_nil (f n : Nat) : natStrGo (f + 1) n ≠ [] := by
  unfold natStrGo
  split_ifs <;> simp

theorem natStr_ne_zero_digits (n : Nat) (h : n ≠ 0) : natStr n ≠ ['0'] := by
  unfold natStr
  by_cases h10 : n < 10
  · have h1 : natStrGo (n + 1) n = [natDigit n] := by simp [natStrGo, h10]
    rw [h1]
    interval_cases n <;> simp_all [natDigit]
  · have h1 : natStrGo (n + 1) n = natStrGo n (n / 10) ++ [natDigit (n % 10)] := by
      simp [natStrGo, h10]
    rw [h1]
    intro he
    obtain ⟨m, rfl⟩ : ∃ m, n = m + 1 := ⟨n - 1, by omega⟩
    have h2 := natStrGo_ne_nil m ((m + 1) / 10)
    have h3 := congrArg List.length he
    rw [List.length_append] at h3
    simp only [List.length_singleton] at h3
    exact h2 (List.length_eq_zero.mp (by omega))

theorem intToStr_ne_zero (c : Int) (h : c ≠ 0) : intToStr c ≠ "0" := by
  unfold intToStr
  split_ifs with hneg
  · intro he
    have h2 : ('-' :: natStr (-c).toNat) = ['0'] := congrArg String.data he
    simp at h2
  · intro he
    have h2 : natStr c.toNat = ['0'] := congrArg String.data he
    exact natStr_ne_zero_digits c.toNat (by omega) h2

/-! ## Claim C3: the error message for a non-zero exit -/

/-- Claim C3 counterexample: at a concrete failing invocation with stderr boom
the error response carries code -32000 but its message is the stderr text
prefixed with Tool execution failed, not the stderr text itself. -/
theorem C3_message_not_stderr :
    (handleToolCall oracleBoom (Json.num 7) (some c3params)).result =
      some (.ok ⟨"2.0", Json.num 7, none,
        some ⟨-32000, "Tool execution failed: boom", none⟩⟩) ∧
    "Tool execution failed: boom" ≠ "boom" := by
  refine ⟨rfl, by decide⟩

/-- Claim C3 (amended): a subprocess exiting with a non-zero status code makes
the handler return a response whose error has code -32000 and whose message is
the fixed prefix Tool execution failed followed by the captured (possibly
truncated) stderr text. -/
theorem C3_nonzero_exit_error (runProc : UseAws → ProcessOutput) (id : Json)
    (params : Json) (tc : ToolCall) (u : UseAws)
    (h1 : decodeToolCall params = .ok tc) (h2 : tc.name = "use_aws")
    (h3 : decodeUseAwsRequest tc.arguments = .ok u)
    (c : Int) (hc : (runProc u).code = some c) (hc0 : c ≠ 0)
    (so se : List Char)
    (hso : truncateOutput (runProc u).stdout = some so)
    (hse : truncateOutput (runProc u).stderr = some se) :
    (handleToolCall runProc id (some params)).result =
      some (.ok ⟨"2.0", id, none,
        some ⟨-32000, "Tool execution failed: " ++ String.mk se, none⟩⟩) := by
  have hI : invokeModel u (runProc u) = some (.error (String.mk se)) := by
    unfold invokeModel
    rw [hso, hse, hc]
    dsimp only
    rw [if_neg]
    simp only [Option.getD_some]
    exact intToStr_ne_zero c hc0
  simp [handleToolCall, h1, h2, h3, hI, errResponse]

/-- Witness for C3 at the concrete failing invocation oracleBoom. -/
theorem C3_nonzero_exit_error_witness :
    (1 : Int) ≠ 0 ∧
    (handleToolCall oracleBoom (Json.num 8) (some c3params)).result =
      some (.ok ⟨"2.0", Json.num 8, none,
        some ⟨-32000, "Tool execution failed: boom", none⟩⟩) :=
  ⟨by decide,
   C3_nonzero_exit_error oracleBoom (Json.num 8) c3params ⟨"use_aws", c3args⟩ c3spec rfl rfl rfl
     1 rfl (by decide) [] "boom".data rfl rfl⟩

/-! ## Claim C1: malformed tools/call arguments and the session -/

/-- Claim C1 counterexample: a tools/call request with params absent makes the
handler return an InvalidRequest error that escapes the read loop: the session
produces no response at all for the request and terminates without dispatching
the following initialize request, contradicting the claim that the failure is
reported as an RpcError in a response and that the session continues. -/
theorem C1_session_terminates :
    runLoop env0 [.request ⟨"2.0", Json.num 1, "tools/call", none⟩,
                  .request ⟨"2.0", Json.num 2, "initialize", none⟩] =
      ([], .failed (.InvalidRequest "Missing params for tools/call")) := rfl

/-- Claim C1 (amended): a tools/call request whose params field is absent, or
whose params or arguments fail to deserialize, is not answered with an error
response: the resulting McpError aborts the read loop, no response is written
for the request, and the remaining inbound messages are never dispatched. -/
theorem C1_malformed_args_kill_session (env : ServerEnv) (id : Json)
    (rest : List JsonRpcMessage) :
    (runLoop env (.request ⟨"2.0", id, "tools/call", none⟩ :: rest) =
      ([], .failed (.InvalidRequest "Missing params for tools/call"))) ∧
    (∀ p e, decodeToolCall p = .error e →
      runLoop env (.request ⟨"2.0", id, "tools/call", some p⟩ :: rest) =
        ([], .failed (.Serialization e))) ∧
    (∀ p tc e, decodeToolCall p = .ok tc → tc.name = "use_aws" →
      decodeUseAwsRequest tc.arguments = .error e →
      runLoop env (.request ⟨"2.0", id, "tools/call", some p⟩ :: rest) =
        ([], .failed (.Serialization e))) := by
  refine ⟨rfl, fun p e h => ?_, fun p tc e h1 h2 h3 => ?_⟩
  · have hTC : handleToolCall env.runProc id (some p) =
        ⟨some (.error (.Serialization e)), []⟩ := by
      simp [handleToolCall, h]
    simp [runLoop, handleMessage, handleRequest, hTC]
  · have hTC : handleToolCall env.runProc id (some p) =
        ⟨some (.error (.Serialization e)), []⟩ := by
      simp [handleToolCall, h1, h2, h3]
    simp [runLoop, handleMessage, handleRequest, hTC]

/-- Witness for C1 at concrete malformed inputs: params absent, params that are
not a ToolCall object, and arguments that are not a UseAwsRequest object. -/
theorem C1_malformed_args_kill_session_witness :
    (runLoop env0 [.request ⟨"2.0", Json.num 3, "tools/call", none⟩] =
      ([], .failed (.InvalidRequest "Missing params for tools/call"))) ∧
    (runLoop env0 [.request ⟨"2.0", Json.num 3, "tools/call", some (Json.num 3)⟩] =
      ([], .failed (.Serialization "invalid type: expected struct ToolCall"))) ∧
    (runLoop env0 [.request ⟨"2.0", Json.num 3, "tools/call",
        some (Json.obj [("name", Json.str "use_aws"), ("arguments", Json.num 5)])⟩] =
      ([], .failed (.Serialization "invalid type: expected struct UseAwsRequest"))) :=
  ⟨(C1_malformed_args_kill_session env0 (Json.num 3) []).1,
   (C1_malformed_args_kill_session env0 (Json.num 3) []).2.1 (Json.num 3) _ rfl,
   (C1_malformed_args_kill_session env0 (Json.num 3) []).2.2
     (Json.obj [("name", Json.str "use_aws"), ("arguments", Json.num 5)])
     ⟨"use_aws", Json.num 5⟩ _ rfl rfl rfl⟩

/-! ## Claim C6: the argument vector -/

/-- Claim C6: the argument vector is, in order, region flag and region, the
profile flag and profile only when present, service and operation, then one
flag per parameter built by stripping the leading double-dash prefix from the
key, kebab-casing it and prefixing two dashes, with the value string as a
separate argument unless it is empty; in particular TableName becomes the flag
with value, and an empty-string value yields the flag alone. -/
theorem C6_argv_layout (u : UseAws) :
    (u.parameters = none →
      u.argv = ["--region", u.region] ++
        (match u.profile_name with
         | some p => ["--profile", p]
         | none => []) ++ [u.service_name, u.operation_name]) ∧
    (∀ ps, u.parameters = some ps →
      u.argv = ["--region", u.region] ++
        (match u.profile_name with
         | some p => ["--profile", p]
         | none => []) ++ [u.service_name, u.operation_name] ++
        (ps.map (fun q =>
          if paramValueStr q.2 = "" then ["--" ++ toKebab (trimStartDashes q.1)]
          else ["--" ++ toKebab (trimStartDashes q.1), paramValueStr q.2])).flatten) ∧
    "--" ++ toKebab (trimStartDashes "TableName") = "--table-name" ∧
    paramValueStr (Json.str "") = "" := by
  refine ⟨fun hp => ?_, fun ps hp => ?_, rfl, rfl⟩
  · simp [UseAws.argv, UseAws.cliParameters, hp]
  · simp only [UseAws.argv, UseAws.cliParameters, hp, Option.map_some']
    rw [List.map_map]
    rfl

/-- Witness for C6: a spec with no parameters and a spec with one valued and
one empty-valued parameter. -/
theorem C6_argv_layout_witness :
    UseAws.argv mutSpec = ["--region", "us-west-2", "s3", "put-object"] ∧
    UseAws.argv c6spec = ["--region", "us-west-2", "--profile", "dev", "dynamodb", "query",
      "--table-name", "t", "--flag"] :=
  ⟨((C6_argv_layout mutSpec).1 rfl).trans rfl,
   ((C6_argv_layout c6spec).2.1 _ rfl).trans rfl⟩

/-! ## Claim C8: response well-formedness and the wire round trip -/

theorem goodResp_err (id : Json) (c : Int) (m : String) : GoodResp (errResponse id c m) :=
  ⟨rfl, Or.inr ⟨rfl, c, m, rfl⟩⟩

theorem goodResp_ok (id v : Json) (hv : v ≠ Json.null) : GoodResp (okResponse id v) :=
  ⟨rfl, Or.inl ⟨v, rfl, hv, rfl⟩⟩

theorem decode_encode_of_good (r : JsonRpcResponse) (h : GoodResp r) :
    decodeMessage (encodeResponse r) = .ok (.response r) := by
  obtain ⟨r1, rid, rres, rerr⟩ := r
  obtain ⟨hjr, hcase⟩ := h
  dsimp only at hjr
  subst hjr
  rcases hcase with ⟨v, hres, hv, herr⟩ | ⟨hres, c, msg, herr⟩
  · dsimp only at hres herr
    subst hres
    subst herr
    cases v with
    | null => exact absurd rfl hv
    | bool b => rfl
    | num n => rfl
    | str s => rfl
    | arr es => rfl
    | obj fs => rfl
  · dsimp only at hres herr
    subst hres
    subst herr
    rfl

theorem handleToolCall_good (runProc : UseAws → ProcessOutput) (id : Json)
    (params? : Option Json) (r : JsonRpcResponse)
    (h : (handleToolCall runProc id params?).result = some (.ok r)) : GoodResp r := by
  unfold handleToolCall at h
  split at h
  · simp at h
  · split at h
    · simp at h
    · split at h
      · dsimp only at h
        simp only [Option.some.injEq, Except.ok.injEq] at h
        subst h
        exact goodResp_err ..
      · split at h
        · simp at h
        · split at h
          · simp at h
          · dsimp only at h
            simp only [Option.some.injEq, Except.ok.injEq] at h
            subst h
            exact goodResp_ok _ _ (fun hh => nomatch hh)
          · dsimp only at h
            simp only [Option.some.injEq, Except.ok.injEq] at h
            subst h
            exact goodResp_err ..

theorem handleRequest_good (env : ServerEnv) (req : JsonRpcRequest) (r : JsonRpcResponse)
    (inv : List UseAws) (hR : handleRequest env req = (some (.ok r), inv)) : GoodResp r := by
  unfold handleRequest at hR
  split_ifs at hR with hini htc hlist
  · simp only [Prod.mk.injEq, Option.some.injEq, Except.ok.injEq] at hR
    obtain ⟨rfl, -⟩ := hR
    exact goodResp_ok _ _ (fun hh => nomatch hh)
  · have h : (handleToolCall env.runProc req.id req.params).result = some (.ok r) := by
      have h2 := congrArg Prod.fst hR
      simpa using h2
    exact handleToolCall_good _ _ _ _ h
  · simp only [Prod.mk.injEq, Option.some.injEq, Except.ok.injEq] at hR
    obtain ⟨rfl, -⟩ := hR
    unfold toolsListResponse
    split
    · exact goodResp_err ..
    · exact goodResp_err ..
    · split
      · exact goodResp_ok _ _ (fun hh => nomatch hh)
      · exact goodResp_err ..
  · simp only [Prod.mk.injEq, Option.some.injEq, Except.ok.injEq] at hR
    obtain ⟨rfl, -⟩ := hR
    exact goodResp_err ..

theorem produced_good (env : ServerEnv) (m : JsonRpcMessage) (r : JsonRpcResponse)
    (h : (handleMessage env m).1 = some (.ok (some r))) : GoodResp r := by
  cases m with
  | notification n => simp [handleMessage] at h
  | response rr => simp [handleMessage] at h
  | request req =>
    unfold handleMessage at h
    dsimp only at h
    rcases hR : handleRequest env req with ⟨res, inv⟩
    rw [hR] at h
    rcases res with _ | (e | r2) <;> dsimp only at h
    · simp at h
    · simp at h
    · simp only [Option.some.injEq, Except.ok.injEq] at h
      subst h
      exact handleRequest_good env req r2 inv hR

/-- Claim C8: every response the server produces survives the wire round trip
unchanged, and in the decoded message the error field is absent exactly when
the result field is present: never both, never neither. -/
theorem C8_response_roundtrip (env : ServerEnv) (m : JsonRpcMessage) (r : JsonRpcResponse)
    (h : (handleMessage env m).1 = some (.ok (some r))) :
    decodeMessage (encodeResponse r) = .ok (.response r) ∧
    (r.error = none ↔ r.result.isSome = true) := by
  have hg := produced_good env m r h
  refine ⟨decode_encode_of_good r hg, ?_⟩
  obtain ⟨-, hcase⟩ := hg
  rcases hcase with ⟨v, hres, -, herr⟩ | ⟨hres, c, msg, herr⟩
  · rw [hres, herr]; simp
  · rw [hres, herr]; simp

/-- Witness for C8 at the concrete response to an unknown method. -/
theorem C8_response_roundtrip_witness :
    decodeMessage (encodeResponse
        (errResponse (Json.num 9) (-32601) "Method \x27nosuch\x27 not found")) =
      .ok (.response (errResponse (Json.num 9) (-32601) "Method \x27nosuch\x27 not found")) ∧
    ((errResponse (Json.num 9) (-32601) "Method \x27nosuch\x27 not found").error = none ↔
     (errResponse (Json.num 9) (-32601) "Method \x27nosuch\x27 not found").result.isSome = true) :=
  C8_response_roundtrip env0 (.request ⟨"2.0", Json.num 9, "nosuch", none⟩)
    (errResponse (Json.num 9) (-32601) "Method \x27nosuch\x27 not found") rfl

end UseAwsMcp
